import Mathlib

/-!
Verification of the school-complaint-system backend (Express + MySQL).

This file gives a shallow embedding, in Lean 4, of the route handlers of the
repository (backend/routes/complaints.js, backend/routes/users.js,
backend/routes/meetings.js, backend/routes/auth.js and
backend/middleware/auth.js) and proves properties of the handlers stated in
the natural-language specification.

Modelling conventions:
- A database table is a list of rows (a Lean structure per table); SELECT by
  key is List.find? on the key column, INSERT appends a row, UPDATE maps over
  the list, DELETE filters the list.  Timestamps (created_at, updated_at,
  resolved_at) carry no claim-relevant information and are omitted from the
  row structures; wall-clock time, where a handler compares against it, is an
  explicit Nat parameter.
- Request-body fields are Option-valued: none models an absent (undefined)
  JSON field.  JavaScript truthiness of a string field (undefined and the
  empty string are falsy) is the strTruthy predicate below.
- Each handler returns its HTTP status code, a structured rendering of the
  relevant res.json body, and the post-state of the table it writes.
- The jsonwebtoken and bcrypt libraries are not part of the repository; they
  are modelled from the specification where needed (see jwtSign, jwtVerify),
  and password comparison is an explicit function parameter of the login
  handler, since no handler inspects its internals.
-/

/-- A row of the users table (password_hash is the stored bcrypt credential). -/
structure User where
  computer_number : String
  role : String
  first_name : String
  last_name : String
  email : String
  phone : String
  password_hash : String
  deriving DecidableEq, Repr

/-- A row of the complaints table. -/
structure Complaint where
  complaint_id : Nat
  computer_number : Option String
  title : String
  description : String
  category : String
  priority : String
  status : String
  contact_phone : Option String
  contact_email : Option String
  anonymous : Bool
  admin_response : Option String
  admin_notes : Option String
  deriving DecidableEq, Repr

/-- A row of the meetings table. -/
structure Meeting where
  meeting_id : Nat
  title : String
  description : Option String
  organizer_computer_number : String
  participant_computer_number : String
  scheduled_at : Nat
  status : String
  deriving DecidableEq, Repr

/-- JavaScript truthiness of an optional string field: undefined and the
empty string are falsy, every other string is truthy. -/
def strTruthy (o : Option String) : Bool :=
  !((o.getD "") = "")

/-- SELECT ... FROM users WHERE computer_number = ? (first matching row). -/
def findUser (users : List User) (cn : String) : Option User :=
  users.find? (fun u => u.computer_number = cn)

/-- SELECT ... FROM complaints WHERE complaint_id = ? (first matching row). -/
def findComplaint (complaints : List Complaint) (id : Nat) : Option Complaint :=
  complaints.find? (fun c => c.complaint_id = id)

/-- SELECT ... FROM meetings WHERE meeting_id = ? (first matching row). -/
def findMeeting (meetings : List Meeting) (id : Nat) : Option Meeting :=
  meetings.find? (fun m => m.meeting_id = id)

/-- The validCategories list of POST /complaints (routes/complaints.js). -/
def validCategories : List String :=
  ["academics", "facilities", "accommodation", "finances", "missing_results",
   "registration", "transport", "library", "cafeteria", "health_services",
   "harassment", "administrative", "internet_network", "disciplinary",
   "sports_recreation", "other"]

/-- The validPriorities list of routes/complaints.js. -/
def validPriorities : List String :=
  ["low", "medium", "high", "urgent"]

/-- The computerNumberRegex test of POST /complaints: the regex matches
exactly ten decimal digits (four digits followed by six digits). -/
def isComputerNumberFormat (s : String) : Bool :=
  s.length = 10 && s.toList.all Char.isDigit

/-- The body of a POST /complaints request.  The authorization field is the
Authorization header of the request; the handler never reads it. -/
structure SubmitComplaintReq where
  computer_number : Option String
  title : Option String
  description : Option String
  category : Option String
  priority : Option String
  contact_phone : Option String
  contact_email : Option String
  anonymous : Option Bool
  authorization : Option String
  deriving DecidableEq, Repr

/-- The possible res.json bodies of POST /complaints, one constructor per
res.json literal in the handler, keeping the fields the claims talk about. -/
inductive SubmitComplaintBody where
  | missingFields (titleMissing descriptionMissing categoryMissing : Bool)
  | invalidCategory (valid_categories : List String)
  | invalidPriority (valid_priorities : List String)
  | computerNumberRequired
  | invalidComputerNumberFormat
  | created (complaint_id : Nat) (title category status : String) (anonymous : Bool)
  deriving DecidableEq, Repr

/-- Whether a POST /complaints response body carries the valid_categories
field (only the invalid-category response does). -/
def listsValidCategories : SubmitComplaintBody → Bool
  | .invalidCategory _ => true
  | _ => false

/-- Result of POST /complaints: HTTP status, response body, and the
complaints table after the handler ran. -/
structure SubmitComplaintResult where
  status : Nat
  body : SubmitComplaintBody
  complaints : List Complaint
  deriving DecidableEq, Repr

/-- POST /complaints (routes/complaints.js).  nextId models the
auto-increment id the INSERT would assign.  Follows the handler line by
line: required-field check, category check, priority check (priority
defaults to medium when absent), computer-number requirement and format
check for non-anonymous requests (anonymous defaults to false), then the
INSERT with computer_number nulled for anonymous complaints and status
pending.  The contact fields are stored through the phone-or-null idiom of
the INSERT parameters. -/
def submitComplaint (complaints : List Complaint) (nextId : Nat)
    (req : SubmitComplaintReq) : SubmitComplaintResult :=
  let title := req.title.getD ""
  let description := req.description.getD ""
  let category := req.category.getD ""
  let priority := req.priority.getD "medium"
  let anonymous := req.anonymous.getD false
  let computer_number := req.computer_number.getD ""
  if title = "" || description = "" || category = "" then
    ⟨400, .missingFields (title = "") (description = "") (category = ""), complaints⟩
  else if !(validCategories.contains category) then
    ⟨400, .invalidCategory validCategories, complaints⟩
  else if !(validPriorities.contains priority) then
    ⟨400, .invalidPriority validPriorities, complaints⟩
  else if !anonymous && computer_number = "" then
    ⟨400, .computerNumberRequired, complaints⟩
  else if !anonymous && !(computer_number = "") && !(isComputerNumberFormat computer_number) then
    ⟨400, .invalidComputerNumberFormat, complaints⟩
  else
    let row : Complaint :=
      { complaint_id := nextId
        computer_number := if anonymous then none else some computer_number
        title := title
        description := description
        category := category
        priority := priority
        status := "pending"
        contact_phone := if strTruthy req.contact_phone then req.contact_phone else none
        contact_email := if strTruthy req.contact_email then req.contact_email else none
        anonymous := anonymous
        admin_response := none
        admin_notes := none }
    ⟨201, .created nextId title category "pending" anonymous, complaints ++ [row]⟩

/-- A JSON value appearing in a pagination object (a natural number or a
boolean). -/
inductive JVal where
  | n (v : Nat)
  | b (v : Bool)
  deriving DecidableEq, Repr

/-- Math.ceil(total / limit) as computed by the listing handlers, with the
operands nonnegative integers: the ceiling of the exact quotient, clamped to
Nat.  (For limit = 0 the JavaScript quotient is Infinity; no claim concerns
that case.) -/
def jsCeilDivNat (total limit : Nat) : Nat :=
  (Int.ceil ((total : ℚ) / (limit : ℚ))).toNat

/-- The pagination object of GET /complaints (routes/complaints.js),
field for field. -/
def paginationComplaints (page limit total : Nat) : List (String × JVal) :=
  let totalPages := jsCeilDivNat total limit
  [("current_page", .n page),
   ("total_pages", .n totalPages),
   ("total_complaints", .n total),
   ("limit", .n limit),
   ("has_next", .b (decide (page < totalPages))),
   ("has_prev", .b (decide (1 < page)))]

/-- The pagination object of GET /users (routes/users.js), field for field. -/
def paginationUsers (page limit total : Nat) : List (String × JVal) :=
  let totalPages := jsCeilDivNat total limit
  [("current_page", .n page),
   ("total_pages", .n totalPages),
   ("total_users", .n total),
   ("limit", .n limit),
   ("has_next", .b (decide (page < totalPages))),
   ("has_prev", .b (decide (1 < page)))]

/-- The pagination object of GET /meetings (routes/meetings.js), field for
field: it carries current_page, total_pages, total_meetings and limit, and
nothing else. -/
def paginationMeetings (page limit total : Nat) : List (String × JVal) :=
  [("current_page", .n page),
   ("total_pages", .n (jsCeilDivNat total limit)),
   ("total_meetings", .n total),
   ("limit", .n limit)]

/-- Look a key up in a JSON object rendered as a key-value list. -/
def jsonField (o : List (String × JVal)) (k : String) : Option JVal :=
  (o.find? (fun kv => kv.1 = k)).map (fun kv => kv.2)

/-- Query parameters of GET /complaints that the claims depend on.  page and
limit are the already-parsed positive integers (parseInt of the query
strings); the authorization field is the ignored Authorization header. -/
structure ListComplaintsReq where
  status : Option String
  category : Option String
  priority : Option String
  computer_number : Option String
  page : Nat
  limit : Nat
  authorization : Option String
  deriving DecidableEq, Repr

/-- The dynamically built WHERE clause of GET /complaints, as a row
predicate: one equality conjunct per supplied filter.  A stored NULL
computer_number matches no filter value, as in SQL. -/
def complaintMatches (req : ListComplaintsReq) (c : Complaint) : Bool :=
  (match req.status with | none => true | some s => c.status = s) &&
  (match req.category with | none => true | some s => c.category = s) &&
  (match req.priority with | none => true | some s => c.priority = s) &&
  (match req.computer_number with | none => true | some s => c.computer_number = some s)

/-- Result of GET /complaints: HTTP status, returned rows, pagination
object. -/
structure ListComplaintsResult where
  status : Nat
  rows : List Complaint
  pagination : List (String × JVal)
  deriving DecidableEq, Repr

/-- GET /complaints (routes/complaints.js): filter, COUNT for pagination,
then LIMIT/OFFSET.  The ORDER BY clause only permutes the returned page and
no claim concerns it, so the stored order stands in for the sort order. -/
def listComplaints (complaints : List Complaint) (req : ListComplaintsReq) :
    ListComplaintsResult :=
  let filtered := complaints.filter (complaintMatches req)
  let total := filtered.length
  let offset := (req.page - 1) * req.limit
  ⟨200, (filtered.drop offset).take req.limit,
    paginationComplaints req.page req.limit total⟩

/-- GET /complaints/:id (routes/complaints.js).  The id argument is the
parsed path parameter; none models a parameter on which parseInt yields NaN.
The authorization argument is the ignored Authorization header.  Returns the
HTTP status and the row served, if any. -/
def getComplaintById (complaints : List Complaint) (id : Option Nat)
    (authorization : Option String) : Nat × Option Complaint :=
  match id with
  | none => (400, none)
  | some i =>
    match findComplaint complaints i with
    | none => (404, none)
    | some c => (200, some c)

/-- The validStatuses list of PUT /complaints/:id (routes/complaints.js). -/
def validStatuses : List String :=
  ["pending", "in_progress", "resolved", "rejected", "closed"]

/-- The body of a PUT /complaints/:id request, plus the ignored
Authorization header. -/
structure UpdateComplaintReq where
  status : Option String
  admin_response : Option String
  admin_notes : Option String
  priority : Option String
  authorization : Option String
  deriving DecidableEq, Repr

/-- The SET clause PUT /complaints/:id builds: each truthy body field
overwrites the corresponding column of the row. -/
def applyComplaintUpdate (req : UpdateComplaintReq) (c : Complaint) : Complaint :=
  let c1 := if strTruthy req.status then { c with status := req.status.getD "" } else c
  let c2 := if strTruthy req.admin_response then { c1 with admin_response := req.admin_response } else c1
  let c3 := if strTruthy req.admin_notes then { c2 with admin_notes := req.admin_notes } else c2
  if strTruthy req.priority then { c3 with priority := req.priority.getD "" } else c3

/-- Result of PUT /complaints/:id: HTTP status and the complaints table
after the handler ran. -/
structure UpdateComplaintResult where
  status : Nat
  complaints : List Complaint
  deriving DecidableEq, Repr

/-- PUT /complaints/:id (routes/complaints.js): id check, existence check,
status validation (only when a truthy status is supplied), priority
validation (only when a truthy priority is supplied), no-fields check, then
the UPDATE over every row with the given id. -/
def updateComplaint (complaints : List Complaint) (id : Option Nat)
    (req : UpdateComplaintReq) : UpdateComplaintResult :=
  match id with
  | none => ⟨400, complaints⟩
  | some i =>
    match findComplaint complaints i with
    | none => ⟨404, complaints⟩
    | some _ =>
      if strTruthy req.status && !(validStatuses.contains (req.status.getD "")) then
        ⟨400, complaints⟩
      else if strTruthy req.priority && !(validPriorities.contains (req.priority.getD "")) then
        ⟨400, complaints⟩
      else if !(strTruthy req.status) && !(strTruthy req.admin_response) &&
              !(strTruthy req.admin_notes) && !(strTruthy req.priority) then
        ⟨400, complaints⟩
      else
        ⟨200, complaints.map (fun c =>
          if c.complaint_id = i then applyComplaintUpdate req c else c)⟩

/-- The validRoles list shared by POST /auth/register and
PUT /users/:computer_number/role. -/
def validRoles : List String :=
  ["admin", "lecturer", "student"]

/-- Result of a users-table mutation (role update or delete): HTTP status
and the users table after the handler ran. -/
structure UserActionResult where
  status : Nat
  users : List User
  deriving DecidableEq, Repr

/-- PUT /users/:computer_number/role (routes/users.js).  caller is req.user,
the row the authentication middleware loaded for the bearer of the token;
target is the path parameter; role is the request-body field.  Checks, in
the order of the source: role required (falsy check), role in validRoles,
target user exists, self-demotion guard (the caller may not change their own
admin role away from admin), then the UPDATE. -/
def updateUserRole (users : List User) (caller : User) (target : String)
    (role : Option String) : UserActionResult :=
  let r := role.getD ""
  if r = "" then ⟨400, users⟩
  else if !(validRoles.contains r) then ⟨400, users⟩
  else
    match findUser users target with
    | none => ⟨404, users⟩
    | some _ =>
      if caller.computer_number = target && caller.role = "admin" && !(r = "admin") then
        ⟨400, users⟩
      else
        ⟨200, users.map (fun u =>
          if u.computer_number = target then { u with role := r } else u)⟩

/-- DELETE /users/:computer_number (routes/users.js): self-deletion guard
first, then existence check, then the DELETE. -/
def deleteUser (users : List User) (caller : User) (target : String) :
    UserActionResult :=
  if caller.computer_number = target then ⟨400, users⟩
  else
    match findUser users target with
    | none => ⟨404, users⟩
    | some _ => ⟨200, users.filter (fun u => !(u.computer_number = target))⟩

/-- The body of a POST /meetings request. -/
structure CreateMeetingReq where
  title : Option String
  description : Option String
  participant_computer_number : Option String
  scheduled_at : Option Nat
  deriving DecidableEq, Repr

/-- Result of a meetings-table operation: HTTP status and the meetings
table after the handler ran. -/
structure MeetingActionResult where
  status : Nat
  meetings : List Meeting
  deriving DecidableEq, Repr

/-- POST /meetings (routes/meetings.js).  caller is req.user; now is the
wall-clock time of the request (the new Date() the handler compares
against).  Checks, in the order of the source: required fields, scheduled
time strictly in the future, participant exists, then the INSERT with the
caller as organizer and status pending. -/
def createMeeting (users : List User) (meetings : List Meeting) (nextId : Nat)
    (caller : User) (now : Nat) (req : CreateMeetingReq) : MeetingActionResult :=
  let title := req.title.getD ""
  let participant := req.participant_computer_number.getD ""
  if title = "" || participant = "" || req.scheduled_at.isNone then
    ⟨400, meetings⟩
  else
    match req.scheduled_at with
    | none => ⟨400, meetings⟩
    | some t =>
      if t ≤ now then ⟨400, meetings⟩
      else
        match findUser users participant with
        | none => ⟨404, meetings⟩
        | some _ =>
          ⟨201, meetings ++ [{ meeting_id := nextId
                               title := title
                               description := req.description
                               organizer_computer_number := caller.computer_number
                               participant_computer_number := participant
                               scheduled_at := t
                               status := "pending" }]⟩

/-- The canAccess check of GET /meetings/:id: admin, organizer or
participant. -/
def canAccessMeeting (caller : User) (m : Meeting) : Bool :=
  caller.role = "admin" ||
  m.organizer_computer_number = caller.computer_number ||
  m.participant_computer_number = caller.computer_number

/-- GET /meetings/:id (routes/meetings.js): existence check, then the
canAccess permission check.  Returns the HTTP status and the row served, if
any; the handler issues no write. -/
def getMeeting (meetings : List Meeting) (caller : User) (id : Nat) :
    Nat × Option Meeting :=
  match findMeeting meetings id with
  | none => (404, none)
  | some m => if canAccessMeeting caller m then (200, some m) else (403, none)

/-- The validStatuses list of PUT /meetings/:id. -/
def validMeetingStatuses : List String :=
  ["pending", "confirmed", "cancelled"]

/-- PUT /meetings/:id (routes/meetings.js): status validation first, then
existence, then the canUpdate check (only the participant or an admin may
update), then the UPDATE of the status column. -/
def updateMeetingStatus (meetings : List Meeting) (caller : User) (id : Nat)
    (status : Option String) : MeetingActionResult :=
  let s := status.getD ""
  if !(validMeetingStatuses.contains s) then ⟨400, meetings⟩
  else
    match findMeeting meetings id with
    | none => ⟨404, meetings⟩
    | some m =>
      if caller.role = "admin" || m.participant_computer_number = caller.computer_number then
        ⟨200, meetings.map (fun x =>
          if x.meeting_id = id then { x with status := s } else x)⟩
      else ⟨403, meetings⟩

/-- DELETE /meetings/:id (routes/meetings.js): existence check, then the
canDelete check (only the organizer or an admin may delete), then the
DELETE. -/
def deleteMeeting (meetings : List Meeting) (caller : User) (id : Nat) :
    MeetingActionResult :=
  match findMeeting meetings id with
  | none => ⟨404, meetings⟩
  | some m =>
    if caller.role = "admin" || m.organizer_computer_number = caller.computer_number then
      ⟨200, meetings.filter (fun x => !(x.meeting_id = id))⟩
    else ⟨403, meetings⟩

/-- The payload the login handler signs into the token: computer_number,
role and email of the authenticated user. -/
structure JwtPayload where
  computer_number : String
  role : String
  email : String
  deriving DecidableEq, Repr

/-- Modelled from the spec: the jsonwebtoken library is not part of the
repository.  A token is its payload together with the secret it was signed
with and its expiry time; sig records which secret the signature verifies
against, so a tampered or foreign token is one whose sig differs from the
verifying secret. -/
structure JwtToken where
  payload : JwtPayload
  sig : String
  expires_at : Nat
  deriving DecidableEq, Repr

/-- Modelled from the spec: jwt.sign of the jsonwebtoken library, as used by
POST /auth/login with expiresIn = JWT_EXPIRES_IN. -/
def jwtSign (p : JwtPayload) (secret : String) (now expiresIn : Nat) : JwtToken :=
  ⟨p, secret, now + expiresIn⟩

/-- The two verification failures the middleware distinguishes. -/
inductive JwtVerifyError where
  | jsonWebTokenError
  | tokenExpiredError
  deriving DecidableEq, Repr

/-- Modelled from the spec: jwt.verify of the jsonwebtoken library.
Signature failure is reported before expiry. -/
def jwtVerify (t : JwtToken) (secret : String) (now : Nat) :
    Except JwtVerifyError JwtPayload :=
  if !(t.sig = secret) then .error .jsonWebTokenError
  else if t.expires_at ≤ now then .error .tokenExpiredError
  else .ok t.payload

/-- Result of POST /auth/login: HTTP status and the token issued on
success. -/
structure LoginResult where
  status : Nat
  token : Option JwtToken
  deriving DecidableEq, Repr

/-- POST /auth/login (routes/auth.js).  bcryptCompare is the password
check of the bcrypt library (not part of the repository); the handler only
branches on its boolean outcome.  Checks, in the order of the source:
required fields, user lookup (invalid credentials when absent), password
comparison (invalid credentials on mismatch), then the jwt.sign of
computer_number, role and email. -/
def login (users : List User) (bcryptCompare : String → String → Bool)
    (secret : String) (now expiresIn : Nat)
    (computer_number password : Option String) : LoginResult :=
  let cn := computer_number.getD ""
  let pw := password.getD ""
  if cn = "" || pw = "" then ⟨400, none⟩
  else
    match findUser users cn with
    | none => ⟨401, none⟩
    | some u =>
      if bcryptCompare pw u.password_hash then
        ⟨200, some (jwtSign ⟨u.computer_number, u.role, u.email⟩ secret now expiresIn)⟩
      else ⟨401, none⟩

/-- Outcome of the authentication middleware: the HTTP status it answers
with when it rejects, or 200 with the loaded user row attached to the
request when it passes control to the handler. -/
structure AuthOutcome where
  status : Nat
  user : Option User
  deriving DecidableEq, Repr

/-- The authenticate middleware (middleware/auth.js): token required, token
verified against JWT_SECRET at the current time (an invalid signature and an
expired token are both answered with 401), then the user row is loaded from
the database (401 when gone). -/
def authenticate (users : List User) (secret : String) (now : Nat)
    (token : Option JwtToken) : AuthOutcome :=
  match token with
  | none => ⟨401, none⟩
  | some t =>
    match jwtVerify t secret now with
    | .error _ => ⟨401, none⟩
    | .ok p =>
      match findUser users p.computer_number with
      | none => ⟨401, none⟩
      | some u => ⟨200, some u⟩

/-- Sample administrator row used by concrete instances below. -/
def sampleAdmin : User :=
  ⟨"2019000001", "admin", "Ada", "Phiri", "ada@unza.zm", "0970000001", "hash-ada"⟩

/-- Sample student row used by concrete instances below. -/
def sampleStudent : User :=
  ⟨"2019000002", "student", "Ben", "Mwale", "ben@unza.zm", "0970000002", "hash-ben"⟩

/-- Sample lecturer row used by concrete instances below. -/
def sampleLecturer : User :=
  ⟨"2019000003", "lecturer", "Cara", "Zulu", "cara@unza.zm", "0970000003", "hash-cara"⟩

/-- Sample meeting between the lecturer (organizer) and the admin
(participant); the student is neither. -/
def sampleMeeting : Meeting :=
  ⟨7, "Supervision", some "weekly", "2019000003", "2019000001", 1000, "pending"⟩

/-- A POST /complaints body with title and description but no category. -/
def reqMissingCategory : SubmitComplaintReq :=
  ⟨some "2019000002", some "Broken chair", some "Chair in LT1 is broken", none,
   none, none, none, some false, none⟩

/-- A well-formed non-anonymous POST /complaints body whose computer_number
is a correctly formatted ten-digit number that belongs to no user. -/
def reqUnknownSubmitter : SubmitComplaintReq :=
  ⟨some "2019999999", some "Broken chair", some "Chair in LT1 is broken",
   some "facilities", none, none, none, some false, none⟩

/-- An anonymous POST /complaints body with a malformed computer_number and
an invalid priority. -/
def reqAnonBadPriority : SubmitComplaintReq :=
  ⟨some "not-a-number", some "Noise", some "Hostel noise at night",
   some "accommodation", some "bogus", none, none, some true, none⟩

/-- An anonymous POST /complaints body with a malformed computer_number and
no priority field. -/
def reqAnonMalformedCn : SubmitComplaintReq :=
  ⟨some "not-a-number", some "Noise", some "Hostel noise at night",
   some "accommodation", none, none, none, some true, none⟩

/-- A non-anonymous POST /complaints body with a malformed computer_number. -/
def reqMalformedCn : SubmitComplaintReq :=
  ⟨some "abc123", some "Wifi down", some "No wifi in the library",
   some "internet_network", none, none, none, none, none⟩

/-- A sample pending complaint row. -/
def sampleComplaint : Complaint :=
  ⟨3, some "2019000002", "Wifi down", "No wifi in the library",
   "internet_network", "medium", "pending", none, none, false, none, none⟩

/-- A POST /meetings body whose scheduled time (50) is not in the future
relative to the sample request time 100. -/
def reqPastMeeting : CreateMeetingReq :=
  ⟨some "Thesis review", some "chapter 3", some "2019000001", some 50⟩

/-- A PUT /complaints/:id body that sets the status to resolved, sent with
no Authorization header. -/
def reqResolve : UpdateComplaintReq :=
  ⟨some "resolved", none, none, none, none⟩

/-- A GET /complaints query with no filters, page 1, limit 10, and no
Authorization header. -/
def reqListAll : ListComplaintsReq :=
  ⟨none, none, none, none, 1, 10, none⟩

/-- Math.ceil of the exact quotient total / limit agrees with the
closed-form natural ceiling division (total + limit - 1) / limit whenever
limit is positive. -/
theorem jsCeilDivNat_eq (total limit : Nat) (h : 0 < limit) :
    jsCeilDivNat total limit = (total + limit - 1) / limit := by
  rw [jsCeilDivNat, Int.ceil_toNat]
  apply le_antisymm
  · rw [Nat.ceil_le]
    rw [div_le_iff₀ (by exact_mod_cast h)]
    rw [← Nat.cast_mul, Nat.cast_le]
    have hlt : total + limit - 1 < ((total + limit - 1) / limit + 1) * limit :=
      (Nat.div_lt_iff_lt_mul h).mp (Nat.lt_succ_self _)
    set q := (total + limit - 1) / limit with hq
    set m := q * limit with hm
    have hml : (q + 1) * limit = m + limit := by rw [hm]; ring
    rw [hml] at hlt
    omega
  · have hle : total ≤ ⌈(total : ℚ) / (limit : ℚ)⌉₊ * limit := by
      have h1 : (total : ℚ) / (limit : ℚ) ≤ (⌈(total : ℚ) / (limit : ℚ)⌉₊ : ℚ) :=
        Nat.le_ceil _
      rw [div_le_iff₀ (by exact_mod_cast h)] at h1
      exact_mod_cast h1
    rw [Nat.div_le_iff_le_mul_add_pred h]
    set c := ⌈(total : ℚ) / (limit : ℚ)⌉₊ with hc
    have hcomm : limit * c = c * limit := Nat.mul_comm _ _
    set m := c * limit with hm
    rw [hcomm]
    omega

/-- C1: for each of the three listing endpoints and every positive integer
limit, the total_pages value of the pagination object is the ceiling of
total_count / limit: it equals the closed-form natural ceiling division,
which in turn is exactly the mathematical ceiling of the exact quotient. -/
theorem total_pages_eq_ceil (page limit total : Nat) (h : 0 < limit) :
    jsonField (paginationComplaints page limit total) "total_pages"
      = some (.n ((total + limit - 1) / limit)) ∧
    jsonField (paginationUsers page limit total) "total_pages"
      = some (.n ((total + limit - 1) / limit)) ∧
    jsonField (paginationMeetings page limit total) "total_pages"
      = some (.n ((total + limit - 1) / limit)) ∧
    (((total + limit - 1) / limit : Nat) : ℤ) = Int.ceil ((total : ℚ) / (limit : ℚ)) := by
  have hceil : (0 : ℤ) ≤ Int.ceil ((total : ℚ) / (limit : ℚ)) :=
    Int.ceil_nonneg (by positivity)
  have hmain := jsCeilDivNat_eq total limit h
  refine ⟨?_, ?_, ?_, ?_⟩
  · have e : jsonField (paginationComplaints page limit total) "total_pages"
        = some (.n (jsCeilDivNat total limit)) := rfl
    rw [e, hmain]
  · have e : jsonField (paginationUsers page limit total) "total_pages"
        = some (.n (jsCeilDivNat total limit)) := rfl
    rw [e, hmain]
  · have e : jsonField (paginationMeetings page limit total) "total_pages"
        = some (.n (jsCeilDivNat total limit)) := rfl
    rw [e, hmain]
  · rw [← hmain, jsCeilDivNat, Int.toNat_of_nonneg hceil]

/-- Witness for C1 at page 2, limit 10, total 25 (total_pages is 3). -/
theorem total_pages_eq_ceil_witness :
    0 < 10 ∧
    (jsonField (paginationComplaints 2 10 25) "total_pages"
      = some (.n ((25 + 10 - 1) / 10)) ∧
    jsonField (paginationUsers 2 10 25) "total_pages"
      = some (.n ((25 + 10 - 1) / 10)) ∧
    jsonField (paginationMeetings 2 10 25) "total_pages"
      = some (.n ((25 + 10 - 1) / 10)) ∧
    (((25 + 10 - 1) / 10 : Nat) : ℤ) = Int.ceil ((25 : ℚ) / (10 : ℚ))) :=
  ⟨by decide, total_pages_eq_ceil 2 10 25 (by decide)⟩

/-- C8 counterexample: the pagination object of the meetings listing
endpoint carries no has_next and no has_prev field (here at page 1,
limit 10, total 0), so the claim that every listing endpoint includes both
flags fails. -/
theorem meetings_pagination_lacks_flags :
    jsonField (paginationMeetings 1 10 0) "has_next" = none ∧
    jsonField (paginationMeetings 1 10 0) "has_prev" = none :=
  ⟨rfl, rfl⟩

/-- C8 (amended): the users and complaints listing endpoints include
has_next and has_prev in their pagination objects, with has_next true
exactly when current_page < total_pages and has_prev true exactly when
current_page > 1; the meetings listing endpoint includes current and total
pages but omits both flags. -/
theorem pagination_flags (page limit total : Nat) (h : 0 < limit) :
    jsonField (paginationComplaints page limit total) "has_next"
      = some (.b (decide (page < (total + limit - 1) / limit))) ∧
    jsonField (paginationComplaints page limit total) "has_prev"
      = some (.b (decide (1 < page))) ∧
    jsonField (paginationUsers page limit total) "has_next"
      = some (.b (decide (page < (total + limit - 1) / limit))) ∧
    jsonField (paginationUsers page limit total) "has_prev"
      = some (.b (decide (1 < page))) ∧
    jsonField (paginationMeetings page limit total) "has_next" = none ∧
    jsonField (paginationMeetings page limit total) "has_prev" = none := by
  have hmain := jsCeilDivNat_eq total limit h
  refine ⟨?_, rfl, ?_, rfl, rfl, rfl⟩
  · have e : jsonField (paginationComplaints page limit total) "has_next"
        = some (.b (decide (page < jsCeilDivNat total limit))) := rfl
    rw [e, hmain]
  · have e : jsonField (paginationUsers page limit total) "has_next"
        = some (.b (decide (page < jsCeilDivNat total limit))) := rfl
    rw [e, hmain]

/-- Witness for the amended C8 at page 2, limit 10, total 25. -/
theorem pagination_flags_witness :
    0 < 10 ∧
    (jsonField (paginationComplaints 2 10 25) "has_next"
      = some (.b (decide (2 < (25 + 10 - 1) / 10))) ∧
    jsonField (paginationComplaints 2 10 25) "has_prev"
      = some (.b (decide (1 < 2))) ∧
    jsonField (paginationUsers 2 10 25) "has_next"
      = some (.b (decide (2 < (25 + 10 - 1) / 10))) ∧
    jsonField (paginationUsers 2 10 25) "has_prev"
      = some (.b (decide (1 < 2))) ∧
    jsonField (paginationMeetings 2 10 25) "has_next" = none ∧
    jsonField (paginationMeetings 2 10 25) "has_prev" = none) :=
  ⟨by decide, pagination_flags 2 10 25 (by decide)⟩

/-- C2: an authenticated administrator (req.user is the admin row the
middleware loaded from the users table) cannot change their own role away
from admin, and cannot delete their own account: both handlers answer 400,
the users table is untouched, and the stored role is still admin. -/
theorem admin_self_protection (users : List User) (caller : User) (role : String)
    (hfind : findUser users caller.computer_number = some caller)
    (hadmin : caller.role = "admin")
    (hrole : role ≠ "admin") :
    (updateUserRole users caller caller.computer_number (some role)).status = 400 ∧
    (updateUserRole users caller caller.computer_number (some role)).users = users ∧
    (findUser (updateUserRole users caller caller.computer_number (some role)).users
        caller.computer_number).map User.role = some "admin" ∧
    (deleteUser users caller caller.computer_number).status = 400 ∧
    (deleteUser users caller caller.computer_number).users = users := by
  have hupd : updateUserRole users caller caller.computer_number (some role)
      = ⟨400, users⟩ := by
    unfold updateUserRole
    simp only [Option.getD_some]
    by_cases h0 : role = ""
    · simp [h0]
    · rw [if_neg h0]
      by_cases h1 : role ∈ validRoles
      · rw [if_neg (by simp [h1]), hfind]
        simp [hadmin, hrole]
      · rw [if_pos (by simp [h1])]
  have hdel : deleteUser users caller caller.computer_number = ⟨400, users⟩ := by
    unfold deleteUser
    simp
  refine ⟨by rw [hupd], by rw [hupd], ?_, by rw [hdel], by rw [hdel]⟩
  rw [hupd]
  simp [hfind, hadmin]

/-- Witness for C2: the sample admin, in a two-user table, asking to demote
itself to student and to delete itself. -/
theorem admin_self_protection_witness :
    findUser [sampleAdmin, sampleStudent] sampleAdmin.computer_number = some sampleAdmin ∧
    sampleAdmin.role = "admin" ∧
    "student" ≠ "admin" ∧
    ((updateUserRole [sampleAdmin, sampleStudent] sampleAdmin
        sampleAdmin.computer_number (some "student")).status = 400 ∧
    (updateUserRole [sampleAdmin, sampleStudent] sampleAdmin
        sampleAdmin.computer_number (some "student")).users = [sampleAdmin, sampleStudent] ∧
    (findUser (updateUserRole [sampleAdmin, sampleStudent] sampleAdmin
        sampleAdmin.computer_number (some "student")).users
        sampleAdmin.computer_number).map User.role = some "admin" ∧
    (deleteUser [sampleAdmin, sampleStudent] sampleAdmin
        sampleAdmin.computer_number).status = 400 ∧
    (deleteUser [sampleAdmin, sampleStudent] sampleAdmin
        sampleAdmin.computer_number).users = [sampleAdmin, sampleStudent]) :=
  ⟨by decide, by decide, by decide,
   admin_self_protection [sampleAdmin, sampleStudent] sampleAdmin "student"
     (by decide) (by decide) (by decide)⟩

/-- C3: a user who is not an admin, not the organizer and not the
participant of an existing meeting gets 403 from reading the meeting, from
updating its status with a valid status, and from deleting it, and the
meetings table is left unchanged. -/
theorem meeting_access_denied (meetings : List Meeting) (caller : User) (id : Nat)
    (m : Meeting) (status : String)
    (hfind : findMeeting meetings id = some m)
    (hadmin : caller.role ≠ "admin")
    (horg : m.organizer_computer_number ≠ caller.computer_number)
    (hpart : m.participant_computer_number ≠ caller.computer_number)
    (hstatus : status ∈ validMeetingStatuses) :
    getMeeting meetings caller id = (403, none) ∧
    updateMeetingStatus meetings caller id (some status) = ⟨403, meetings⟩ ∧
    deleteMeeting meetings caller id = ⟨403, meetings⟩ := by
  refine ⟨?_, ?_, ?_⟩
  · unfold getMeeting
    rw [hfind]
    simp [canAccessMeeting, hadmin, horg, hpart]
  · unfold updateMeetingStatus
    simp only [Option.getD_some]
    rw [if_neg (by simp [hstatus]), hfind]
    simp [hadmin, hpart]
  · unfold deleteMeeting
    rw [hfind]
    simp [hadmin, horg]

/-- Witness for C3: the sample student against the sample meeting (the
lecturer organizes it, the admin is the participant). -/
theorem meeting_access_denied_witness :
    findMeeting [sampleMeeting] 7 = some sampleMeeting ∧
    sampleStudent.role ≠ "admin" ∧
    sampleMeeting.organizer_computer_number ≠ sampleStudent.computer_number ∧
    sampleMeeting.participant_computer_number ≠ sampleStudent.computer_number ∧
    "confirmed" ∈ validMeetingStatuses ∧
    (getMeeting [sampleMeeting] sampleStudent 7 = (403, none) ∧
    updateMeetingStatus [sampleMeeting] sampleStudent 7 (some "confirmed")
      = ⟨403, [sampleMeeting]⟩ ∧
    deleteMeeting [sampleMeeting] sampleStudent 7 = ⟨403, [sampleMeeting]⟩) :=
  ⟨by decide, by decide, by decide, by decide, by decide,
   meeting_access_denied [sampleMeeting] sampleStudent 7 sampleMeeting "confirmed"
     (by decide) (by decide) (by decide) (by decide) (by decide)⟩

/-- C4 counterexample: a submission with title and description but no
category is answered with 400 and no row is inserted, but the response body
is the required-fields error, which does not carry the valid_categories
list (only the invalid-category response does). -/
theorem missing_category_response_has_no_list :
    (submitComplaint [] 1 reqMissingCategory).status = 400 ∧
    listsValidCategories (submitComplaint [] 1 reqMissingCategory).body = false ∧
    (submitComplaint [] 1 reqMissingCategory).complaints = [] := by
  decide

/-- C4 (amended): a complaint submission whose body lacks a category field
is answered with 400 and no row is inserted, but the 400 body is the
required-fields error and does not list the valid categories; the
valid-categories list is only returned when a category is present and
invalid. -/
theorem missing_category_rejected (complaints : List Complaint) (nextId : Nat)
    (req : SubmitComplaintReq) (h : req.category = none) :
    (submitComplaint complaints nextId req).status = 400 ∧
    listsValidCategories (submitComplaint complaints nextId req).body = false ∧
    (submitComplaint complaints nextId req).complaints = complaints := by
  simp [submitComplaint, h, listsValidCategories]

/-- Witness for the amended C4 at the sample category-free request. -/
theorem missing_category_rejected_witness :
    reqMissingCategory.category = none ∧
    ((submitComplaint [sampleComplaint] 4 reqMissingCategory).status = 400 ∧
    listsValidCategories (submitComplaint [sampleComplaint] 4 reqMissingCategory).body = false ∧
    (submitComplaint [sampleComplaint] 4 reqMissingCategory).complaints = [sampleComplaint]) :=
  ⟨by decide, missing_category_rejected [sampleComplaint] 4 reqMissingCategory (by decide)⟩

/-- C6 counterexample: a non-anonymous submission whose computer_number is
a well-formed ten-digit number belonging to no user (the users table is
empty) is accepted with 201 and the row is inserted with that dangling
submitter reference, so the claim that such submissions are rejected
fails. -/
theorem unknown_submitter_accepted :
    (submitComplaint [] 1 reqUnknownSubmitter).status = 201 ∧
    (submitComplaint [] 1 reqUnknownSubmitter).complaints.map Complaint.computer_number
      = [some "2019999999"] ∧
    findUser [] "2019999999" = none := by
  decide

/-- C6 (amended): for non-anonymous submissions the handler validates only
the ten-digit format of computer_number, not its existence in the users
table: a missing or malformed computer_number is rejected with 400 and no
row is inserted, and any row the handler does insert carries the request
computer_number verbatim, checked for format only. -/
theorem non_anonymous_format_only (complaints : List Complaint) (nextId : Nat)
    (req : SubmitComplaintReq) (hanon : req.anonymous.getD false = false) :
    (isComputerNumberFormat (req.computer_number.getD "") = false →
      (submitComplaint complaints nextId req).status = 400 ∧
      (submitComplaint complaints nextId req).complaints = complaints) ∧
    (∀ c ∈ (submitComplaint complaints nextId req).complaints,
      c ∈ complaints ∨
      (c.computer_number = some (req.computer_number.getD "") ∧
       isComputerNumberFormat (req.computer_number.getD "") = true)) := by
  unfold submitComplaint
  simp only [hanon, Bool.not_false, Bool.true_and, Bool.false_eq_true, if_false]
  generalize (if strTruthy req.contact_phone then req.contact_phone else none) = cp
  generalize (if strTruthy req.contact_email then req.contact_email else none) = ce
  split_ifs with h1 h2 h3 h4 h5
  · exact ⟨fun _ => ⟨rfl, rfl⟩, fun c hc => Or.inl hc⟩
  · exact ⟨fun _ => ⟨rfl, rfl⟩, fun c hc => Or.inl hc⟩
  · exact ⟨fun _ => ⟨rfl, rfl⟩, fun c hc => Or.inl hc⟩
  · exact ⟨fun _ => ⟨rfl, rfl⟩, fun c hc => Or.inl hc⟩
  · exact ⟨fun _ => ⟨rfl, rfl⟩, fun c hc => Or.inl hc⟩
  · have hcn : ¬ req.computer_number.getD "" = "" := by simpa using h4
    have hformat : isComputerNumberFormat (req.computer_number.getD "") = true := by
      rcases Bool.eq_false_or_eq_true (isComputerNumberFormat (req.computer_number.getD "")) with hf | hf
      · exact hf
      · exfalso
        apply h5
        simp [hcn, hf]
    refine ⟨fun hfalse => ?_, fun c hc => ?_⟩
    · rw [hformat] at hfalse
      cases hfalse
    · simp only [List.mem_append, List.mem_singleton] at hc
      rcases hc with hc | hc
      · exact Or.inl hc
      · subst hc
        exact Or.inr ⟨rfl, hformat⟩

/-- Witness for the amended C6: a non-anonymous submission with a malformed
computer_number against a one-row complaints table. -/
theorem non_anonymous_format_only_witness :
    reqMalformedCn.anonymous.getD false = false ∧
    ((isComputerNumberFormat (reqMalformedCn.computer_number.getD "") = false →
      (submitComplaint [sampleComplaint] 4 reqMalformedCn).status = 400 ∧
      (submitComplaint [sampleComplaint] 4 reqMalformedCn).complaints = [sampleComplaint]) ∧
    (∀ c ∈ (submitComplaint [sampleComplaint] 4 reqMalformedCn).complaints,
      c ∈ [sampleComplaint] ∨
      (c.computer_number = some (reqMalformedCn.computer_number.getD "") ∧
       isComputerNumberFormat (reqMalformedCn.computer_number.getD "") = true))) :=
  ⟨by decide, non_anonymous_format_only [sampleComplaint] 4 reqMalformedCn (by decide)⟩

/-- C9 counterexample: an anonymous submission with title, description and
a valid category present but an invalid priority supplied is rejected with
400 and nothing is inserted, so the claim that every such request succeeds
fails. -/
theorem anonymous_invalid_priority_rejected :
    (submitComplaint [] 1 reqAnonBadPriority).status = 400 ∧
    (submitComplaint [] 1 reqAnonBadPriority).complaints = [] := by
  decide

/-- C9 (amended): an anonymous submission with title, description and a
valid category present, and a priority that is absent or valid, succeeds
with 201, the inserted row stores a null computer_number regardless of any
computer_number supplied in the body, and the computer-number format check
is skipped (the request computer_number is wholly unconstrained). -/
theorem anonymous_submission_null_submitter (complaints : List Complaint)
    (nextId : Nat) (req : SubmitComplaintReq)
    (hanon : req.anonymous = some true)
    (ht : req.title.getD "" ≠ "")
    (hd : req.description.getD "" ≠ "")
    (hc : req.category.getD "" ∈ validCategories)
    (hp : req.priority.getD "medium" ∈ validPriorities) :
    (submitComplaint complaints nextId req).status = 201 ∧
    (submitComplaint complaints nextId req).complaints.map Complaint.computer_number
      = complaints.map Complaint.computer_number ++ [none] := by
  have hcne : req.category.getD "" ≠ "" := by
    intro h0
    rw [h0] at hc
    exact absurd hc (by decide)
  unfold submitComplaint
  simp only [hanon, Option.getD_some]
  rw [if_neg (by simp [ht, hd, hcne])]
  rw [if_neg (by simp [hc])]
  rw [if_neg (by simp [hp])]
  simp

/-- Witness for the amended C9: an anonymous submission carrying a
malformed computer_number still succeeds and stores a null submitter. -/
theorem anonymous_submission_null_submitter_witness :
    reqAnonMalformedCn.anonymous = some true ∧
    reqAnonMalformedCn.title.getD "" ≠ "" ∧
    reqAnonMalformedCn.description.getD "" ≠ "" ∧
    reqAnonMalformedCn.category.getD "" ∈ validCategories ∧
    reqAnonMalformedCn.priority.getD "medium" ∈ validPriorities ∧
    ((submitComplaint [sampleComplaint] 4 reqAnonMalformedCn).status = 201 ∧
    (submitComplaint [sampleComplaint] 4 reqAnonMalformedCn).complaints.map
        Complaint.computer_number
      = [sampleComplaint].map Complaint.computer_number ++ [none]) :=
  ⟨by decide, by decide, by decide, by decide, by decide,
   anonymous_submission_null_submitter [sampleComplaint] 4 reqAnonMalformedCn
     (by decide) (by decide) (by decide) (by decide) (by decide)⟩

/-- C7: a meeting-creation request whose scheduled time is not strictly in
the future at the time of the request is answered with 400 and inserts
nothing; dually, every meeting the handler adds to the table has a
scheduled time strictly after the request time. -/
theorem meeting_future_time_required (users : List User) (meetings : List Meeting)
    (nextId : Nat) (caller : User) (now : Nat) (req : CreateMeetingReq) (t : Nat)
    (hsched : req.scheduled_at = some t) :
    (t ≤ now →
      (createMeeting users meetings nextId caller now req).status = 400 ∧
      (createMeeting users meetings nextId caller now req).meetings = meetings) ∧
    (∀ m ∈ (createMeeting users meetings nextId caller now req).meetings,
      m ∈ meetings ∨ now < m.scheduled_at) := by
  unfold createMeeting
  simp only [hsched, Option.isNone_some, Bool.or_false]
  split_ifs with h1 h2
  · exact ⟨fun _ => ⟨rfl, rfl⟩, fun m hm => Or.inl hm⟩
  · exact ⟨fun _ => ⟨rfl, rfl⟩, fun m hm => Or.inl hm⟩
  · split
    · exact ⟨fun hle => absurd hle h2, fun m hm => Or.inl hm⟩
    · refine ⟨fun hle => absurd hle h2, fun m hm => ?_⟩
      simp only [List.mem_append, List.mem_singleton] at hm
      rcases hm with hm | hm
      · exact Or.inl hm
      · subst hm
        exact Or.inr (Nat.not_le.mp h2)

/-- Witness for C7: the sample lecturer asking at time 100 for a meeting
scheduled at time 50. -/
theorem meeting_future_time_required_witness :
    reqPastMeeting.scheduled_at = some 50 ∧
    ((50 ≤ 100 →
      (createMeeting [sampleAdmin] [] 1 sampleLecturer 100 reqPastMeeting).status = 400 ∧
      (createMeeting [sampleAdmin] [] 1 sampleLecturer 100 reqPastMeeting).meetings = []) ∧
    (∀ m ∈ (createMeeting [sampleAdmin] [] 1 sampleLecturer 100 reqPastMeeting).meetings,
      m ∈ ([] : List Meeting) ∨ 100 < m.scheduled_at)) :=
  ⟨by decide,
   meeting_future_time_required [sampleAdmin] [] 1 sampleLecturer 100 reqPastMeeting 50
     (by decide)⟩

/-- C5: a login whose computer_number names an existing user and whose
password passes the bcrypt comparison against the stored hash is answered
200 with a token signed with the server secret that encodes exactly the
computer_number, role and email of that user; and any request to a route
behind the authentication middleware whose bearer token fails signature
verification or is expired is answered 401. -/
theorem login_token_and_auth_rejection (users : List User)
    (bcryptCompare : String → String → Bool) (secret : String)
    (now expiresIn : Nat) (u : User) (cn pw : String)
    (hcn : cn ≠ "") (hpw : pw ≠ "")
    (hfind : findUser users cn = some u)
    (hpass : bcryptCompare pw u.password_hash = true) :
    login users bcryptCompare secret now expiresIn (some cn) (some pw)
      = ⟨200, some ⟨⟨u.computer_number, u.role, u.email⟩, secret, now + expiresIn⟩⟩ ∧
    (∀ (t : JwtToken) (later : Nat), t.sig ≠ secret ∨ t.expires_at ≤ later →
      (authenticate users secret later (some t)).status = 401) := by
  constructor
  · unfold login
    simp only [Option.getD_some, hfind]
    rw [if_neg (by simp [hcn, hpw])]
    rw [if_pos hpass]
    rfl
  · intro t later h
    by_cases hsig : t.sig = secret
    · have hexp : t.expires_at ≤ later := by
        rcases h with h | h
        · exact absurd hsig h
        · exact h
      simp [authenticate, jwtVerify, hsig, hexp]
    · simp [authenticate, jwtVerify, hsig]

/-- Witness for C5: the sample student logging in with the password that
matches its stored hash under a comparison that checks equality with the
hash, then an expired token and a token signed with a different secret both
being rejected. -/
theorem login_token_and_auth_rejection_witness :
    "2019000002" ≠ "" ∧
    "hash-ben" ≠ "" ∧
    findUser [sampleStudent] "2019000002" = some sampleStudent ∧
    (fun p h => p = h : String → String → Bool) "hash-ben" sampleStudent.password_hash = true ∧
    (login [sampleStudent] (fun p h => p = h) "s3cret" 100 3600
        (some "2019000002") (some "hash-ben")
      = ⟨200, some ⟨⟨sampleStudent.computer_number, sampleStudent.role,
          sampleStudent.email⟩, "s3cret", 100 + 3600⟩⟩ ∧
    (∀ (t : JwtToken) (later : Nat), t.sig ≠ "s3cret" ∨ t.expires_at ≤ later →
      (authenticate [sampleStudent] "s3cret" later (some t)).status = 401)) :=
  ⟨by decide, by decide, by decide, by decide,
   login_token_and_auth_rejection [sampleStudent] (fun p h => p = h) "s3cret"
     100 3600 sampleStudent "2019000002" "hash-ben"
     (by decide) (by decide) (by decide) (by decide)⟩

/-- C10: the complaint routes sit behind no authentication middleware: for
every request, POST /complaints, GET /complaints, GET /complaints/:id and
PUT /complaints/:id never answer 401 or 403, whatever the Authorization
header carries; in particular an unauthenticated PUT with a valid status
sets the status of an existing complaint. -/
theorem complaints_routes_unauthenticated (complaints : List Complaint)
    (nextId : Nat) (sreq : SubmitComplaintReq) (lreq : ListComplaintsReq)
    (gid : Option Nat) (gauth : Option String) (uid : Option Nat)
    (ureq : UpdateComplaintReq) (i : Nat) (c : Complaint) (s : String)
    (auth : Option String)
    (hfind : findComplaint complaints i = some c)
    (hs : s ∈ validStatuses) :
    ((submitComplaint complaints nextId sreq).status ≠ 401 ∧
     (submitComplaint complaints nextId sreq).status ≠ 403) ∧
    (listComplaints complaints lreq).status = 200 ∧
    ((getComplaintById complaints gid gauth).1 ≠ 401 ∧
     (getComplaintById complaints gid gauth).1 ≠ 403) ∧
    ((updateComplaint complaints uid ureq).status ≠ 401 ∧
     (updateComplaint complaints uid ureq).status ≠ 403) ∧
    ((updateComplaint complaints (some i) ⟨some s, none, none, none, auth⟩).status = 200 ∧
     (updateComplaint complaints (some i) ⟨some s, none, none, none, auth⟩).complaints
       = complaints.map (fun x =>
           if x.complaint_id = i then { x with status := s } else x)) := by
  have hsub : (submitComplaint complaints nextId sreq).status = 400 ∨
      (submitComplaint complaints nextId sreq).status = 201 := by
    unfold submitComplaint
    dsimp only
    split_ifs <;> simp
  have hget : (getComplaintById complaints gid gauth).1 = 400 ∨
      (getComplaintById complaints gid gauth).1 = 404 ∨
      (getComplaintById complaints gid gauth).1 = 200 := by
    unfold getComplaintById
    rcases gid with _ | j
    · simp
    · rcases hj : findComplaint complaints j with _ | c2 <;> simp [hj]
  have hupd : (updateComplaint complaints uid ureq).status = 400 ∨
      (updateComplaint complaints uid ureq).status = 404 ∨
      (updateComplaint complaints uid ureq).status = 200 := by
    unfold updateComplaint
    rcases uid with _ | j
    · simp
    · rcases hj : findComplaint complaints j with _ | c2
      · simp [hj]
      · simp only [hj]
        split_ifs <;> simp
  have hsne : ¬ (s = "") := by
    intro h0
    rw [h0] at hs
    exact absurd hs (by decide)
  have happly : ∀ x : Complaint,
      applyComplaintUpdate ⟨some s, none, none, none, auth⟩ x = { x with status := s } := by
    intro x
    simp [applyComplaintUpdate, strTruthy, hsne]
  have hmut : updateComplaint complaints (some i) ⟨some s, none, none, none, auth⟩
      = ⟨200, complaints.map (fun x =>
          if x.complaint_id = i then { x with status := s } else x)⟩ := by
    unfold updateComplaint
    simp only [hfind]
    rw [if_neg (by simp [strTruthy, hsne, hs])]
    rw [if_neg (by simp [strTruthy])]
    rw [if_neg (by simp [strTruthy, hsne])]
    simp only [happly]
  refine ⟨⟨?_, ?_⟩, rfl, ⟨?_, ?_⟩, ⟨?_, ?_⟩, by rw [hmut], by rw [hmut]⟩
  · rcases hsub with h | h <;> omega
  · rcases hsub with h | h <;> omega
  · rcases hget with h | h | h <;> omega
  · rcases hget with h | h | h <;> omega
  · rcases hupd with h | h | h <;> omega
  · rcases hupd with h | h | h <;> omega

/-- Witness for C10: the one-row complaints table, an unauthenticated PUT
that resolves complaint 3, and arbitrary sample requests for the other
routes. -/
theorem complaints_routes_unauthenticated_witness :
    findComplaint [sampleComplaint] 3 = some sampleComplaint ∧
    "resolved" ∈ validStatuses ∧
    (((submitComplaint [sampleComplaint] 4 reqMissingCategory).status ≠ 401 ∧
     (submitComplaint [sampleComplaint] 4 reqMissingCategory).status ≠ 403) ∧
    (listComplaints [sampleComplaint] reqListAll).status = 200 ∧
    ((getComplaintById [sampleComplaint] (some 3) none).1 ≠ 401 ∧
     (getComplaintById [sampleComplaint] (some 3) none).1 ≠ 403) ∧
    ((updateComplaint [sampleComplaint] none reqResolve).status ≠ 401 ∧
     (updateComplaint [sampleComplaint] none reqResolve).status ≠ 403) ∧
    ((updateComplaint [sampleComplaint] (some 3)
        ⟨some "resolved", none, none, none, none⟩).status = 200 ∧
     (updateComplaint [sampleComplaint] (some 3)
        ⟨some "resolved", none, none, none, none⟩).complaints
       = [sampleComplaint].map (fun x =>
           if x.complaint_id = 3 then { x with status := "resolved" } else x))) :=
  ⟨by decide, by decide,
   complaints_routes_unauthenticated [sampleComplaint] 4 reqMissingCategory
     reqListAll (some 3) none none reqResolve 3 sampleComplaint "resolved" none
     (by decide) (by decide)⟩
